import Mathlib

/-!
Verification of the search-provider dispatcher `ExtHostSearch`
(src/vs/workbench/api/node/extHostSearch.ts).

The TypeScript module is shallowly embedded: the registry's mutable maps
become an explicit state record threaded through the operations, JavaScript
`Map.set`/`Map.get`/`Map.delete` become association-list operations with the
same replace/last-write-wins semantics, the internal provider's event stream
becomes a finite list of events folded in emission order, and a request's
promise becomes an `Option`-valued resolution slot that keeps its first value
(first `resolve`/`reject` wins, later settlements are no-ops — Promise
semantics). Accessing a member of JavaScript `undefined` throws a
`TypeError`; lookups that the source performs on possibly-absent values are
embedded as `Except`/explicit error outcomes where that matters.

Outbound proxy notifications (`$registerTextSearchProvider`,
`$unregisterProvider`, …) and the scheme transformer are peer-side effects
carrying no state this module later reads; they are not part of the state.
-/

namespace ExtHostSearch

/-- Portable URI components as sent over the transport
(`UriComponents` from vs/base/common/uri). -/
structure UriComponents where
  scheme : String
  authority : String
  path : String
  query : String
  fragment : String
deriving DecidableEq, Repr

/-- A revived resource identifier (`URI` from vs/base/common/uri).
Structurally it carries the same five components; the point of revival is
that it is a distinct, fully-typed value reconstructed from the portable
components. -/
structure URI where
  scheme : String
  authority : String
  path : String
  query : String
  fragment : String
deriving DecidableEq, Repr

/-- `URI.revive(components)`: reconstitute a full resource identifier from
its portable components. -/
def URI.revive (c : UriComponents) : URI :=
  { scheme := c.scheme, authority := c.authority, path := c.path,
    query := c.query, fragment := c.fragment }

/-- `URI.file(path)`: a file-scheme resource identifier, as used by
`doInternalFileSearch` to turn a serialized match path into a resource. -/
def URI.file (path : String) : URI :=
  { scheme := "file", authority := "", path := path, query := "", fragment := "" }

/-- `IFolderQuery<U>`: one folder root plus folder-scoped overrides
(the fields this module reads in `doInternalFileSearch`). -/
structure IFolderQuery (α : Type) where
  folder : α
  excludePattern : Option String
  includePattern : Option String
  fileEncoding : Option String
  disregardIgnoreFiles : Option Bool
  disregardGlobalIgnoreFiles : Option Bool
deriving DecidableEq, Repr

/-- `IRawSearchQuery` / `ISearchQuery`, parameterized by the resource type:
`UriComponents` on the wire, `URI` once revived.  The non-resource fields are
the ones this module reads (`doInternalFileSearch` lines 119-135); patterns
are kept as opaque strings since their structure is external to the module. -/
structure SearchQueryData (α : Type) where
  filePattern : Option String
  excludePattern : Option String
  includePattern : Option String
  contentPattern : Option String
  maxResults : Option Nat
  existsFlag : Option Bool
  sortByScore : Option Bool
  cacheKey : Option String
  maxFileSize : Option Nat
  useRipgrep : Option Bool
  disregardIgnoreFiles : Option Bool
  disregardGlobalIgnoreFiles : Option Bool
  ignoreSymlinks : Option Bool
  previewOptions : Option String
  folderQueries : Option (List (IFolderQuery α))
  extraFileResources : Option (List α)
deriving DecidableEq, Repr

/-- `reviveFolderQuery(rawFolderQuery)`: spread the raw folder query and
replace `folder` with the revived URI. -/
def reviveFolderQuery (r : IFolderQuery UriComponents) : IFolderQuery URI :=
  { folder := URI.revive r.folder
    excludePattern := r.excludePattern
    includePattern := r.includePattern
    fileEncoding := r.fileEncoding
    disregardIgnoreFiles := r.disregardIgnoreFiles
    disregardGlobalIgnoreFiles := r.disregardGlobalIgnoreFiles }

/-- `reviveQuery(rawQuery)`: spread the raw query and overwrite exactly the
two resource-bearing fields.  `rawQuery.folderQueries && …map(…)` keeps
`undefined` as `undefined`, which `Option.map` mirrors. -/
def reviveQuery (raw : SearchQueryData UriComponents) : SearchQueryData URI :=
  { filePattern := raw.filePattern
    excludePattern := raw.excludePattern
    includePattern := raw.includePattern
    contentPattern := raw.contentPattern
    maxResults := raw.maxResults
    existsFlag := raw.existsFlag
    sortByScore := raw.sortByScore
    cacheKey := raw.cacheKey
    maxFileSize := raw.maxFileSize
    useRipgrep := raw.useRipgrep
    disregardIgnoreFiles := raw.disregardIgnoreFiles
    disregardGlobalIgnoreFiles := raw.disregardGlobalIgnoreFiles
    ignoreSymlinks := raw.ignoreSymlinks
    previewOptions := raw.previewOptions
    folderQueries := raw.folderQueries.map (List.map reviveFolderQuery)
    extraFileResources := raw.extraFileResources.map (List.map URI.revive) }

/-! ## Provider registry state -/

/-- A registered `vscode.TextSearchProvider`.  Only its identity and whether
it declares the `provideTextSearchResults` capability matter to this module's
control flow; the capability check `!provider.provideTextSearchResults`
branches on exactly this flag. -/
structure TextSearchProvider where
  id : Nat
  hasProvideTextSearchResults : Bool
deriving DecidableEq, Repr

/-- JavaScript `Map.get`: the value stored under the key, absent when the key
is unmapped. -/
def mapGet {α : Type} (m : List (Nat × α)) (k : Nat) : Option α :=
  (m.find? (fun p => p.1 = k)).map (·.2)

/-- JavaScript `Map.set`: store `v` under `k`, replacing any previous entry. -/
def mapSet {α : Type} (m : List (Nat × α)) (k : Nat) (v : α) : List (Nat × α) :=
  (k, v) :: m.filter (fun p => p.1 ≠ k)

/-- JavaScript `Map.delete`: remove the entry under `k`, a no-op when absent. -/
def mapDelete {α : Type} (m : List (Nat × α)) (k : Nat) : List (Nat × α) :=
  m.filter (fun p => p.1 ≠ k)

/-- The mutable fields of the `ExtHostSearch` instance: the three
kind-specific provider maps, the handle pool, and the single internal
provider slot with its handle field.  User-supplied file-search and
file-index providers, and the internal `SearchService`, are opaque to this
module's control flow and are carried as identities (`Nat`).
`_internalFileSearchHandle` and `_internalFileSearchProvider` start
JavaScript-`undefined`/are nulled on disposal, embedded as `Option`. -/
structure ExtHostSearchState where
  textSearchProvider : List (Nat × TextSearchProvider)
  fileSearchProvider : List (Nat × Nat)
  fileIndexProvider : List (Nat × Nat)
  handlePool : Nat
  internalFileSearchHandle : Option Nat
  internalFileSearchProvider : Option Nat
deriving DecidableEq, Repr

/-- The state of a freshly constructed `ExtHostSearch` (constructor with the
ripgrep/extension-host startup registrations disabled): empty maps,
`_handlePool = 0`, no internal provider. -/
def initialState : ExtHostSearchState :=
  { textSearchProvider := []
    fileSearchProvider := []
    fileIndexProvider := []
    handlePool := 0
    internalFileSearchHandle := none
    internalFileSearchProvider := none }

/-- `registerTextSearchProvider`: allocate `handle = this._handlePool++`,
store the provider in the text map.  Returns the fresh handle together with
the new state. -/
def registerTextSearchProvider (s : ExtHostSearchState) (p : TextSearchProvider) :
    Nat × ExtHostSearchState :=
  let handle := s.handlePool
  (handle, { s with
    handlePool := s.handlePool + 1
    textSearchProvider := mapSet s.textSearchProvider handle p })

/-- The disposer returned by `registerTextSearchProvider`, bound to its
`handle`: `this._textSearchProvider.delete(handle)`. -/
def disposeTextSearchProvider (s : ExtHostSearchState) (handle : Nat) :
    ExtHostSearchState :=
  { s with textSearchProvider := mapDelete s.textSearchProvider handle }

/-- `registerFileSearchProvider`: allocate a fresh handle and store the
provider in the file-search map. -/
def registerFileSearchProvider (s : ExtHostSearchState) (p : Nat) :
    Nat × ExtHostSearchState :=
  let handle := s.handlePool
  (handle, { s with
    handlePool := s.handlePool + 1
    fileSearchProvider := mapSet s.fileSearchProvider handle p })

/-- The disposer returned by `registerFileSearchProvider`:
`this._fileSearchProvider.delete(handle)`. -/
def disposeFileSearchProvider (s : ExtHostSearchState) (handle : Nat) :
    ExtHostSearchState :=
  { s with fileSearchProvider := mapDelete s.fileSearchProvider handle }

/-- `registerInternalFileSearchProvider`: allocate a fresh handle, overwrite
the single internal slot and the internal handle field. -/
def registerInternalFileSearchProvider (s : ExtHostSearchState) (p : Nat) :
    Nat × ExtHostSearchState :=
  let handle := s.handlePool
  (handle, { s with
    handlePool := s.handlePool + 1
    internalFileSearchProvider := some p
    internalFileSearchHandle := some handle })

/-- The disposer returned by `registerInternalFileSearchProvider`:
`this._internalFileSearchProvider = null` — unconditional, regardless of
which registration the disposer came from, and the handle field is left
untouched.  (The handle the disposer captured is only used for the outbound
`$unregisterProvider` notification.) -/
def disposeInternalFileSearchProvider (s : ExtHostSearchState) :
    ExtHostSearchState :=
  { s with internalFileSearchProvider := none }

/-- `registerFileIndexProvider`: allocate a fresh handle and store the
provider in the file-index map. -/
def registerFileIndexProvider (s : ExtHostSearchState) (p : Nat) :
    Nat × ExtHostSearchState :=
  let handle := s.handlePool
  (handle, { s with
    handlePool := s.handlePool + 1
    fileIndexProvider := mapSet s.fileIndexProvider handle p })

/-- The disposer returned by `registerFileIndexProvider`.  The source (line
93) runs `this._fileSearchProvider.delete(handle)` — it deletes from the
file-SEARCH map, not the file-index map. -/
def disposeFileIndexProvider (s : ExtHostSearchState) (handle : Nat) :
    ExtHostSearchState :=
  { s with fileSearchProvider := mapDelete s.fileSearchProvider handle }

/-! ## Internal file search: event stream and trace -/

/-- `ISerializedSearchSuccess` payload: the statistics the success terminal
event carries (`limitHit` plus opaque timing/count stats). -/
structure SearchSuccessStats where
  limitHit : Bool
  stats : Nat
deriving DecidableEq, Repr

/-- One event from the internal provider's event stream, classified by the
structural guards of the listener in `doInternalFileSearch`:
`isSerializedSearchComplete` (success or failure), `isSerializedFileMatch`
(one serialized match, carrying a `path`), an array of serialized matches,
or an informational progress message. -/
inductive SerializedSearchEvent where
  | success (stats : SearchSuccessStats)
  | failure (error : String)
  | fileMatch (path : String)
  | fileMatchArray (paths : List String)
  | progressMessage (message : String)
deriving DecidableEq, Repr

/-- Terminal outcome of one request: how its promise settles. -/
inductive CompletionResult where
  | success (stats : SearchSuccessStats)
  | failure (error : String)
deriving DecidableEq, Repr

/-- The observable effects of one `doInternalFileSearch` request:
`$handleFileMatch(handle, session, resources)` invocations in order, debug
log lines, and the promise's settlement (`none` while pending; a settled
promise keeps its first value). -/
structure InternalSearchTrace where
  fileMatchCalls : List (Nat × Nat × List URI)
  logCalls : List String
  resolution : Option CompletionResult
deriving DecidableEq, Repr

/-- The event listener of `doInternalFileSearch`, one event:
a terminal event resolves/rejects the promise (a no-op when already
settled — Promise first-settlement-wins); a single serialized match is
wrapped into a one-element array; an array is forwarded as
`$handleFileMatch(handle, session, ev.map(m => URI.file(m.path)))`
regardless of whether the promise has settled (the listener is never
detached); a message event is logged. -/
def handleInternalEvent (handle session : Nat) (tr : InternalSearchTrace)
    (ev : SerializedSearchEvent) : InternalSearchTrace :=
  match ev with
  | .success stats =>
      match tr.resolution with
      | some _ => tr
      | none => { tr with resolution := some (.success stats) }
  | .failure error =>
      match tr.resolution with
      | some _ => tr
      | none => { tr with resolution := some (.failure error) }
  | .fileMatch path =>
      { tr with fileMatchCalls :=
          tr.fileMatchCalls ++ [(handle, session, [URI.file path])] }
  | .fileMatchArray paths =>
      { tr with fileMatchCalls :=
          tr.fileMatchCalls ++ [(handle, session, paths.map URI.file)] }
  | .progressMessage message =>
      { tr with logCalls := tr.logCalls ++ [message] }

/-- `doInternalFileSearch`, given the finite event sequence the internal
provider's `fileSearch(query)` stream emits, in emission order: fold the
listener over the events starting from a pending promise and no calls. -/
def doInternalFileSearch (handle session : Nat)
    (events : List SerializedSearchEvent) : InternalSearchTrace :=
  events.foldl (handleInternalEvent handle session)
    { fileMatchCalls := [], logCalls := [], resolution := none }

/-- Calling `fileSearch` on the internal provider slot: on a null slot
(`this._internalFileSearchProvider.fileSearch(query)` with the slot nulled
by a disposer) JavaScript throws a `TypeError`; otherwise the event stream
is consumed as in `doInternalFileSearch`. -/
def runInternalFileSearch (provider : Option Nat) (handle session : Nat)
    (events : List SerializedSearchEvent) : Except String InternalSearchTrace :=
  match provider with
  | none => .error "TypeError: cannot read property of null"
  | some _ => .ok (doInternalFileSearch handle session events)

/-! ## File-search request dispatch -/

/-- Where `$provideFileSearchResults` routes a request.  The source has no
provider-not-found branch: when the handle is neither the internal handle
nor in the file-search map, the request always goes to the file-index search
manager, passing along whatever `this._fileIndexProvider.get(handle)`
returned — possibly absent.  The `providerNotFound` constructor exists only
so the spec's claimed classification is expressible; the definition never
produces it. -/
inductive FileSearchRoute where
  | internalSearch (provider : Option Nat)
  | fileSearchManager (provider : Nat)
  | fileIndexManager (provider : Option Nat)
  | providerNotFound
deriving DecidableEq, Repr

/-- The dispatch of `$provideFileSearchResults(handle, session, rawQuery)`:
`handle === this._internalFileSearchHandle` (strict equality, false when the
field is still `undefined`) routes to `doInternalFileSearch` against the
current internal slot; else a hit in the file-search map routes to the
`FileSearchManager`; else the request is handed to the
`FileIndexSearchManager` with the (possibly absent) file-index map entry. -/
def provideFileSearchRoute (s : ExtHostSearchState) (handle : Nat) :
    FileSearchRoute :=
  if s.internalFileSearchHandle = some handle then
    .internalSearch s.internalFileSearchProvider
  else
    match mapGet s.fileSearchProvider handle with
    | some provider => .fileSearchManager provider
    | none => .fileIndexManager (mapGet s.fileIndexProvider handle)

/-! ## Text-search request -/

/-- The immediate outcome of `$provideTextSearchResults(handle, …)`:
`this._textSearchProvider.get(handle)` gives `undefined` for an unregistered
handle, so the guard `!provider.provideTextSearchResults` throws a
`TypeError`; with a registered provider lacking the capability the request
returns `TPromise.as(undefined)` (resolved, empty result, no engine and so
no `$handleTextMatch` call); otherwise a `TextSearchManager` engine is
constructed and drives the provider. -/
inductive TextSearchOutcome where
  | typeError
  | resolvedUndefined
  | engineSearch (provider : Nat)
deriving DecidableEq, Repr

/-- Dispatch of `$provideTextSearchResults` up to the point where an engine
(or an immediate result, or a thrown `TypeError`) is produced. -/
def provideTextSearchResults (s : ExtHostSearchState) (handle : Nat) :
    TextSearchOutcome :=
  match mapGet s.textSearchProvider handle with
  | none => .typeError
  | some provider =>
      if provider.hasProvideTextSearchResults then .engineSearch provider.id
      else .resolvedUndefined

/-! ## Cache invalidation -/

/-- One forwarded cache invalidation. -/
inductive ClearCacheCall where
  | internalProvider (cacheKey : String)
  | fileIndexSearchManager (cacheKey : String)
deriving DecidableEq, Repr

/-- `$clearCache(cacheKey)`: forward to the internal provider first when the
slot is non-null, then always to the file-index search manager's cache.
Returned as the ordered list of forwarded calls. -/
def clearCache (s : ExtHostSearchState) (cacheKey : String) :
    List ClearCacheCall :=
  (if s.internalFileSearchProvider.isSome
    then [ClearCacheCall.internalProvider cacheKey] else [])
    ++ [ClearCacheCall.fileIndexSearchManager cacheKey]

/-- Modelled from the spec: the caches the two collaborators
(`SearchService.clearCache` and `FileIndexSearchManager.clearCache`, whose
implementations live outside this module) maintain, as the sets of cache
keys currently held.  Clearing a key is a total deletion: "Must not fail if
no cache entry exists for the key (no-op)." -/
def collaboratorClearCache (cache : List String) (cacheKey : String) :
    List String :=
  cache.filter (· ≠ cacheKey)

/-! ## Sequences of registry operations -/

/-- One operation against the registry: a call to one of the four register
entry points, or a run of one of the disposers they returned. -/
inductive RegistryOp where
  | registerText (p : TextSearchProvider)
  | registerFile (p : Nat)
  | registerFileIndex (p : Nat)
  | registerInternal (p : Nat)
  | disposeText (handle : Nat)
  | disposeFile (handle : Nat)
  | disposeFileIndex (handle : Nat)
  | disposeInternal
deriving DecidableEq, Repr

/-- Whether the operation is one of the four register entry points (the ones
that allocate and return a handle). -/
def RegistryOp.isRegister : RegistryOp → Bool
  | .registerText _ | .registerFile _ | .registerFileIndex _ | .registerInternal _ => true
  | _ => false

/-- Run one registry operation; registers return `some` freshly allocated
handle, disposer runs return `none`. -/
def runRegistryOp (s : ExtHostSearchState) : RegistryOp → Option Nat × ExtHostSearchState
  | .registerText p =>
      let r := registerTextSearchProvider s p
      (some r.1, r.2)
  | .registerFile p =>
      let r := registerFileSearchProvider s p
      (some r.1, r.2)
  | .registerFileIndex p =>
      let r := registerFileIndexProvider s p
      (some r.1, r.2)
  | .registerInternal p =>
      let r := registerInternalFileSearchProvider s p
      (some r.1, r.2)
  | .disposeText handle => (none, disposeTextSearchProvider s handle)
  | .disposeFile handle => (none, disposeFileSearchProvider s handle)
  | .disposeFileIndex handle => (none, disposeFileIndexProvider s handle)
  | .disposeInternal => (none, disposeInternalFileSearchProvider s)

/-- Run a sequence of registry operations, collecting the handles the
register calls returned, in order. -/
def runRegistryOps (s : ExtHostSearchState) :
    List RegistryOp → List Nat × ExtHostSearchState
  | [] => ([], s)
  | op :: rest =>
      let step := runRegistryOp s op
      let next := runRegistryOps step.2 rest
      (step.1.toList ++ next.1, next.2)

/-! ## Derived classifiers of internal-search events -/

/-- Whether the listener treats the event as a match batch (a single
serialized match or an array of them). -/
def SerializedSearchEvent.isMatchEvent : SerializedSearchEvent → Bool
  | .fileMatch _ | .fileMatchArray _ => true
  | _ => false

/-- The `$handleFileMatch` call a match event produces, if any: a single
serialized match is wrapped into a one-element batch, an array is forwarded
element-wise through `URI.file`. -/
def matchCall (handle session : Nat) :
    SerializedSearchEvent → Option (Nat × Nat × List URI)
  | .fileMatch path => some (handle, session, [URI.file path])
  | .fileMatchArray paths => some (handle, session, paths.map URI.file)
  | _ => none

/-- How a terminal event settles the promise, if it is terminal at all. -/
def terminalResolution : SerializedSearchEvent → Option CompletionResult
  | .success stats => some (.success stats)
  | .failure error => some (.failure error)
  | _ => none

/-! ## Sample values used to exercise the definitions -/

/-- Portable components of a concrete folder root. -/
def sampleComponents : UriComponents :=
  { scheme := "file", authority := "", path := "/workspace", query := "", fragment := "" }

/-- A concrete folder query in transport-safe form. -/
def sampleFolderQuery : IFolderQuery UriComponents :=
  { folder := sampleComponents, excludePattern := none, includePattern := none,
    fileEncoding := none, disregardIgnoreFiles := none,
    disregardGlobalIgnoreFiles := none }

/-- A concrete well-formed transport-safe query with one folder query. -/
def sampleRawQuery : SearchQueryData UriComponents :=
  { filePattern := some "abc", excludePattern := none, includePattern := none,
    contentPattern := none, maxResults := some 100, existsFlag := none,
    sortByScore := some true, cacheKey := some "cache-1", maxFileSize := none,
    useRipgrep := some true, disregardIgnoreFiles := none,
    disregardGlobalIgnoreFiles := none, ignoreSymlinks := some false,
    previewOptions := none, folderQueries := some [sampleFolderQuery],
    extraFileResources := none }

theorem runRegistryOp_handlePool (s : ExtHostSearchState) (op : RegistryOp) :
    (runRegistryOp s op).2.handlePool
      = s.handlePool + (if op.isRegister then 1 else 0) := by
  cases op <;>
    simp [runRegistryOp, RegistryOp.isRegister, registerTextSearchProvider,
      registerFileSearchProvider, registerFileIndexProvider,
      registerInternalFileSearchProvider, disposeTextSearchProvider,
      disposeFileSearchProvider, disposeFileIndexProvider,
      disposeInternalFileSearchProvider]

theorem runRegistryOp_fst (s : ExtHostSearchState) (op : RegistryOp) :
    (runRegistryOp s op).1
      = (if op.isRegister then some s.handlePool else none) := by
  cases op <;>
    simp [runRegistryOp, RegistryOp.isRegister, registerTextSearchProvider,
      registerFileSearchProvider, registerFileIndexProvider,
      registerInternalFileSearchProvider, disposeTextSearchProvider,
      disposeFileSearchProvider, disposeFileIndexProvider,
      disposeInternalFileSearchProvider]

theorem runRegistryOps_handles (ops : List RegistryOp) (s : ExtHostSearchState) :
    (runRegistryOps s ops).1
      = List.range' s.handlePool (ops.countP (RegistryOp.isRegister ·)) := by
  induction ops generalizing s with
  | nil => simp [runRegistryOps]
  | cons op rest ih =>
      have hpool := runRegistryOp_handlePool s op
      have hfst := runRegistryOp_fst s op
      by_cases hreg : op.isRegister = true
      · simp only [runRegistryOps, ih, hpool, hfst, hreg, if_true,
          List.countP_cons, Option.toList_some]
        simp [List.range'_succ]
      · simp only [runRegistryOps, ih, hpool, hfst, hreg, if_false,
          List.countP_cons, Option.toList_none]
        simp [hreg]

/-! ## Lemmas about the internal-search event fold -/

theorem foldl_fileMatchCalls (handle session : Nat)
    (tr : InternalSearchTrace) (events : List SerializedSearchEvent) :
    (events.foldl (handleInternalEvent handle session) tr).fileMatchCalls
      = tr.fileMatchCalls ++ events.filterMap (matchCall handle session) := by
  induction events generalizing tr with
  | nil => simp
  | cons ev rest ih =>
      cases ev <;>
        simp [handleInternalEvent, matchCall, ih] <;>
        cases htr : tr.resolution <;> simp [ih]

theorem foldl_resolution (handle session : Nat)
    (tr : InternalSearchTrace) (events : List SerializedSearchEvent) :
    (events.foldl (handleInternalEvent handle session) tr).resolution
      = (match tr.resolution with
          | some r => some r
          | none => events.findSome? terminalResolution) := by
  induction events generalizing tr with
  | nil => cases htr : tr.resolution <;> simp [htr]
  | cons ev rest ih =>
      cases htr : tr.resolution <;>
        cases ev <;>
        simp [handleInternalEvent, terminalResolution, List.findSome?_cons, htr, ih]

theorem doInternalFileSearch_fileMatchCalls (handle session : Nat)
    (events : List SerializedSearchEvent) :
    (doInternalFileSearch handle session events).fileMatchCalls
      = events.filterMap (matchCall handle session) := by
  simp [doInternalFileSearch, foldl_fileMatchCalls]

theorem doInternalFileSearch_resolution (handle session : Nat)
    (events : List SerializedSearchEvent) :
    (doInternalFileSearch handle session events).resolution
      = events.findSome? terminalResolution := by
  simp [doInternalFileSearch, foldl_resolution]

theorem findSome?_append_of_none {α β : Type} (f : α → Option β)
    (l1 l2 : List α) (h : ∀ e ∈ l1, f e = none) :
    (l1 ++ l2).findSome? f = l2.findSome? f := by
  induction l1 with
  | nil => simp
  | cons a rest ih =>
      have ha : f a = none := h a (by simp)
      simp [List.findSome?_cons, ha]
      exact ih (fun e he => h e (by simp [he]))

theorem filterMap_length_of_isSome {α β : Type} (f : α → Option β)
    (l : List α) (h : ∀ e ∈ l, (f e).isSome = true) :
    (l.filterMap f).length = l.length := by
  induction l with
  | nil => simp
  | cons a rest ih =>
      have ha := h a (by simp)
      have hrest : ∀ e ∈ rest, (f e).isSome = true := fun e he => h e (by simp [he])
      rcases hfa : f a with _ | b
      · rw [hfa] at ha; simp at ha
      · simp [List.filterMap_cons, hfa, ih hrest]

theorem isMatchEvent_terminalResolution (e : SerializedSearchEvent)
    (h : e.isMatchEvent = true) : terminalResolution e = none := by
  cases e <;> simp_all [SerializedSearchEvent.isMatchEvent, terminalResolution]

theorem isMatchEvent_matchCall (handle session : Nat) (e : SerializedSearchEvent)
    (h : e.isMatchEvent = true) : (matchCall handle session e).isSome = true := by
  cases e <;> simp_all [SerializedSearchEvent.isMatchEvent, matchCall]

theorem terminalResolution_matchCall (handle session : Nat)
    (e : SerializedSearchEvent) (r : CompletionResult)
    (h : terminalResolution e = some r) : matchCall handle session e = none := by
  cases e <;> simp_all [terminalResolution, matchCall]

/-! ## The claims -/

/-- C1: for a file-search request on the internal provider whose event
stream emits a finite sequence of match-batch events followed by exactly one
success terminal event, `$handleFileMatch` is invoked once per batch (the
delivered calls are exactly the batches' calls, one each, in the provider's
order) and the promise resolves exactly once, with the success completion
carrying the terminal event's statistics. -/
theorem internal_search_batches_then_success (handle session : Nat)
    (pre : List SerializedSearchEvent) (stats : SearchSuccessStats)
    (hpre : ∀ e ∈ pre, e.isMatchEvent = true) :
    (doInternalFileSearch handle session
        (pre ++ [SerializedSearchEvent.success stats])).fileMatchCalls
      = pre.filterMap (matchCall handle session) ∧
    (pre.filterMap (matchCall handle session)).length = pre.length ∧
    (doInternalFileSearch handle session
        (pre ++ [SerializedSearchEvent.success stats])).resolution
      = some (CompletionResult.success stats) := by
  refine ⟨?_, ?_, ?_⟩
  · rw [doInternalFileSearch_fileMatchCalls, List.filterMap_append]
    simp [matchCall]
  · exact filterMap_length_of_isSome _ _
      (fun e he => isMatchEvent_matchCall handle session e (hpre e he))
  · rw [doInternalFileSearch_resolution,
      findSome?_append_of_none _ _ _
        (fun e he => isMatchEvent_terminalResolution e (hpre e he))]
    simp [List.findSome?_cons, terminalResolution]

/-- Witness for C1 at a concrete run: two batches then a success event. -/
theorem internal_search_batches_then_success_witness :
    (∀ e ∈ [SerializedSearchEvent.fileMatchArray ["a", "b"],
        SerializedSearchEvent.fileMatch "c"], e.isMatchEvent = true) ∧
    ((doInternalFileSearch 3 7
        ([SerializedSearchEvent.fileMatchArray ["a", "b"],
          SerializedSearchEvent.fileMatch "c"]
          ++ [SerializedSearchEvent.success { limitHit := false, stats := 5 }])).fileMatchCalls
      = [SerializedSearchEvent.fileMatchArray ["a", "b"],
          SerializedSearchEvent.fileMatch "c"].filterMap (matchCall 3 7) ∧
    ([SerializedSearchEvent.fileMatchArray ["a", "b"],
        SerializedSearchEvent.fileMatch "c"].filterMap (matchCall 3 7)).length
      = [SerializedSearchEvent.fileMatchArray ["a", "b"],
          SerializedSearchEvent.fileMatch "c"].length ∧
    (doInternalFileSearch 3 7
        ([SerializedSearchEvent.fileMatchArray ["a", "b"],
          SerializedSearchEvent.fileMatch "c"]
          ++ [SerializedSearchEvent.success { limitHit := false, stats := 5 }])).resolution
      = some (CompletionResult.success { limitHit := false, stats := 5 })) :=
  ⟨by decide,
    internal_search_batches_then_success 3 7
      [SerializedSearchEvent.fileMatchArray ["a", "b"],
        SerializedSearchEvent.fileMatch "c"]
      { limitHit := false, stats := 5 } (by decide)⟩

/-- C2 counterexample: the listener in `doInternalFileSearch` is never
detached, so a match event emitted after the success terminal event still
triggers a `$handleFileMatch` invocation — processing `[success]` alone
forwards nothing, while `[success, match "a"]` forwards a batch after the
terminal event was processed. -/
theorem internal_search_match_after_terminal_forwarded :
    (doInternalFileSearch 1 2
        [SerializedSearchEvent.success { limitHit := false, stats := 0 }]).fileMatchCalls
      = [] ∧
    (doInternalFileSearch 1 2
        [SerializedSearchEvent.success { limitHit := false, stats := 0 },
          SerializedSearchEvent.fileMatch "a"]).fileMatchCalls
      ≠ [] ∧
    (doInternalFileSearch 1 2
        [SerializedSearchEvent.success { limitHit := false, stats := 0 },
          SerializedSearchEvent.fileMatch "a"]).fileMatchCalls
      = [(1, 2, [URI.file "a"])] := by decide

/-- C2 amended: for every event sequence containing a terminal event, the
promise settles exactly once, with the outcome of the first terminal event
(later terminals are no-ops), and every batch the provider produced before
that terminal event is forwarded, in order, ahead of anything after it;
however, match events after the terminal event still trigger
`$handleFileMatch` invocations, because the listener is never detached. -/
theorem internal_search_first_terminal_settles (handle session : Nat)
    (pre post : List SerializedSearchEvent) (t : SerializedSearchEvent)
    (r : CompletionResult)
    (hpre : ∀ e ∈ pre, terminalResolution e = none)
    (ht : terminalResolution t = some r) :
    (doInternalFileSearch handle session (pre ++ t :: post)).resolution = some r ∧
    (doInternalFileSearch handle session (pre ++ t :: post)).fileMatchCalls
      = pre.filterMap (matchCall handle session)
        ++ post.filterMap (matchCall handle session) := by
  constructor
  · rw [doInternalFileSearch_resolution, findSome?_append_of_none _ _ _ hpre]
    simp [List.findSome?_cons, ht]
  · rw [doInternalFileSearch_fileMatchCalls, List.filterMap_append,
      List.filterMap_cons, terminalResolution_matchCall handle session t r ht]

/-- Witness for the amended C2: a batch, a failure terminal, then a
post-terminal batch that is still forwarded. -/
theorem internal_search_first_terminal_settles_witness :
    (doInternalFileSearch 0 1
        ([SerializedSearchEvent.fileMatch "x"]
          ++ SerializedSearchEvent.failure "boom"
            :: [SerializedSearchEvent.fileMatch "y"])).resolution
      = some (CompletionResult.failure "boom") ∧
    (doInternalFileSearch 0 1
        ([SerializedSearchEvent.fileMatch "x"]
          ++ SerializedSearchEvent.failure "boom"
            :: [SerializedSearchEvent.fileMatch "y"])).fileMatchCalls
      = [SerializedSearchEvent.fileMatch "x"].filterMap (matchCall 0 1)
        ++ [SerializedSearchEvent.fileMatch "y"].filterMap (matchCall 0 1) :=
  internal_search_first_terminal_settles 0 1
    [SerializedSearchEvent.fileMatch "x"] [SerializedSearchEvent.fileMatch "y"]
    (SerializedSearchEvent.failure "boom") (CompletionResult.failure "boom")
    (by decide) (by decide)

/-- C3 counterexample: a file-search request for a fully unregistered handle
(not the internal handle, in neither provider map) is not rejected with a
provider-not-found classification — `$provideFileSearchResults` has no such
branch and instead hands the request to the file-index search manager with
an absent provider. -/
theorem unregistered_handle_not_providerNotFound :
    provideFileSearchRoute initialState 3 = FileSearchRoute.fileIndexManager none ∧
    provideFileSearchRoute initialState 3 ≠ FileSearchRoute.providerNotFound := by
  decide

/-- C3 amended: for every state and every handle that is not the internal
handle and is registered in neither the file-search nor the file-index map,
the dispatcher routes the request to the file-index search manager with an
absent provider; no provider-not-found rejection is produced by this
module. -/
theorem unregistered_handle_routes_to_fileIndexManager
    (s : ExtHostSearchState) (handle : Nat)
    (h1 : s.internalFileSearchHandle ≠ some handle)
    (h2 : mapGet s.fileSearchProvider handle = none)
    (h3 : mapGet s.fileIndexProvider handle = none) :
    provideFileSearchRoute s handle = FileSearchRoute.fileIndexManager none := by
  simp [provideFileSearchRoute, h1, h2, h3]

/-- Witness for the amended C3 at the fresh state and handle 5. -/
theorem unregistered_handle_routes_to_fileIndexManager_witness :
    provideFileSearchRoute initialState 5 = FileSearchRoute.fileIndexManager none :=
  unregistered_handle_routes_to_fileIndexManager initialState 5
    (by decide) (by decide) (by decide)

/-- C4: at the failing input — a text-search request for a handle with no
registered text provider — the guard `!provider.provideTextSearchResults`
dereferences `undefined` and throws a `TypeError` instead of resolving with
an empty result; the second conjunct shows the claim's other half, a
registered provider lacking the capability, does resolve immediately with
`undefined` (no engine, hence zero `$handleTextMatch` calls). -/
theorem textSearch_absent_provider_typeError :
    provideTextSearchResults initialState 0 = TextSearchOutcome.typeError ∧
    provideTextSearchResults
        (registerTextSearchProvider initialState
          { id := 5, hasProvideTextSearchResults := false }).2
        (registerTextSearchProvider initialState
          { id := 5, hasProvideTextSearchResults := false }).1
      = TextSearchOutcome.resolvedUndefined := by
  decide

/-- C5: at the failing input — register a file-index provider (provider 7,
handle 0) and run the disposer it returned — the handle is still present in
the file-index map (the disposer deleted from the file-search map instead,
source line 93), and a subsequent file-search request for that handle still
resolves to provider 7. -/
theorem fileIndex_dispose_leaves_mapping :
    mapGet (disposeFileIndexProvider
        (registerFileIndexProvider initialState 7).2
        (registerFileIndexProvider initialState 7).1).fileIndexProvider
      (registerFileIndexProvider initialState 7).1 = some 7 ∧
    provideFileSearchRoute (disposeFileIndexProvider
        (registerFileIndexProvider initialState 7).2
        (registerFileIndexProvider initialState 7).1)
      (registerFileIndexProvider initialState 7).1
      = FileSearchRoute.fileIndexManager (some 7) := by
  decide

/-- C6: over every sequence of register and dispose operations from the
fresh state, the handles the four register entry points return are exactly
`0, 1, 2, …` in registration order — each strictly greater than every
previously returned handle, hence unique and never reused after a disposal
(disposers never touch the pool). -/
theorem register_handles_monotonic (ops : List RegistryOp) :
    (runRegistryOps initialState ops).1
      = List.range' 0 (ops.countP (RegistryOp.isRegister ·)) ∧
    List.Pairwise (· < ·) (runRegistryOps initialState ops).1 := by
  have h := runRegistryOps_handles ops initialState
  refine ⟨h, ?_⟩
  rw [h]
  exact List.pairwise_lt_range' 0 _

/-- C7: for every well-formed transport-safe query whose `folderQueries` is
a list of N folder queries, `reviveQuery` (a total function — no existence
validation, no failure path) produces exactly the element-wise revival of
that list: N folder queries, same order, each root reconstituted by
`URI.revive` from its portable components. -/
theorem reviveQuery_folderQueries_revived (raw : SearchQueryData UriComponents)
    (l : List (IFolderQuery UriComponents)) (h : raw.folderQueries = some l) :
    (reviveQuery raw).folderQueries = some (l.map reviveFolderQuery) ∧
    ((reviveQuery raw).folderQueries.getD []).length = l.length ∧
    ∀ i : Nat, (((reviveQuery raw).folderQueries.getD [])[i]?).map IFolderQuery.folder
      = (l[i]?).map (fun fq => URI.revive fq.folder) := by
  have h1 : (reviveQuery raw).folderQueries = some (l.map reviveFolderQuery) := by
    simp [reviveQuery, h]
  refine ⟨h1, ?_, ?_⟩
  · rw [h1]; simp
  · intro i
    rw [h1]
    simp only [Option.getD_some, List.getElem?_map, Option.map_map]
    cases l[i]? <;> simp [reviveFolderQuery, Function.comp]

/-- Witness for C7 on a concrete one-folder query. -/
theorem reviveQuery_folderQueries_revived_witness :
    (reviveQuery sampleRawQuery).folderQueries
      = some ([sampleFolderQuery].map reviveFolderQuery) ∧
    ((reviveQuery sampleRawQuery).folderQueries.getD []).length
      = [sampleFolderQuery].length ∧
    ∀ i : Nat,
      (((reviveQuery sampleRawQuery).folderQueries.getD [])[i]?).map IFolderQuery.folder
        = ([sampleFolderQuery][i]?).map (fun fq => URI.revive fq.folder) :=
  reviveQuery_folderQueries_revived sampleRawQuery [sampleFolderQuery] rfl

/-- C8: `$clearCache` forwards the invalidation to the internal provider
first exactly when one is registered, always forwards to the file-index
search manager's cache, and — with the collaborators' caches modelled from
the spec as key sets cleared by total deletion — clearing a key nobody holds
is a no-op, not an error. -/
theorem clearCache_forwarding (s : ExtHostSearchState) (key : String) :
    (s.internalFileSearchProvider.isSome = true →
      clearCache s key
        = [ClearCacheCall.internalProvider key,
            ClearCacheCall.fileIndexSearchManager key]) ∧
    (s.internalFileSearchProvider = none →
      clearCache s key = [ClearCacheCall.fileIndexSearchManager key]) ∧
    ClearCacheCall.fileIndexSearchManager key ∈ clearCache s key ∧
    ∀ cache : List String, key ∉ cache → collaboratorClearCache cache key = cache := by
  refine ⟨fun h => by simp [clearCache, h], fun h => by simp [clearCache, h], ?_, ?_⟩
  · simp [clearCache]
  · intro cache hk
    apply List.filter_eq_self.mpr
    intro a ha
    have hne : a ≠ key := fun he => hk (he ▸ ha)
    simp [hne]

/-- Witness for C8: with no internal provider and the key `key-A` held by
nobody, the invalidation is forwarded only to the file-index search manager
and the collaborator's cache clear is a no-op. -/
theorem clearCache_forwarding_witness :
    clearCache initialState "key-A" = [ClearCacheCall.fileIndexSearchManager "key-A"] ∧
    collaboratorClearCache [] "key-A" = [] := by
  have h := clearCache_forwarding initialState "key-A"
  exact ⟨h.2.1 rfl, h.2.2.2 [] (by simp)⟩

/-- C9: `reviveQuery` rewrites only the two resource-bearing fields — every
other field of the output equals the corresponding field of the input. -/
theorem reviveQuery_frames_other_fields (raw : SearchQueryData UriComponents) :
    (reviveQuery raw).filePattern = raw.filePattern ∧
    (reviveQuery raw).excludePattern = raw.excludePattern ∧
    (reviveQuery raw).includePattern = raw.includePattern ∧
    (reviveQuery raw).contentPattern = raw.contentPattern ∧
    (reviveQuery raw).maxResults = raw.maxResults ∧
    (reviveQuery raw).existsFlag = raw.existsFlag ∧
    (reviveQuery raw).sortByScore = raw.sortByScore ∧
    (reviveQuery raw).cacheKey = raw.cacheKey ∧
    (reviveQuery raw).maxFileSize = raw.maxFileSize ∧
    (reviveQuery raw).useRipgrep = raw.useRipgrep ∧
    (reviveQuery raw).disregardIgnoreFiles = raw.disregardIgnoreFiles ∧
    (reviveQuery raw).disregardGlobalIgnoreFiles = raw.disregardGlobalIgnoreFiles ∧
    (reviveQuery raw).ignoreSymlinks = raw.ignoreSymlinks ∧
    (reviveQuery raw).previewOptions = raw.previewOptions :=
  ⟨rfl, rfl, rfl, rfl, rfl, rfl, rfl, rfl, rfl, rfl, rfl, rfl, rfl, rfl⟩

/-- C10: register internal provider `p1` (call it r1), then internal
provider `p2` (r2), then run r1's disposer: the single internal slot is
unconditionally nulled — removing r2's provider — while the internal handle
field keeps r2's handle.  Consequently `$clearCache` no longer forwards to
any internal provider, and a file-search request for r2's handle routes to
the internal path with a null provider, where
`this._internalFileSearchProvider.fileSearch(query)` throws. -/
theorem internal_dispose_clobbers_newer_registration (s : ExtHostSearchState)
    (p1 p2 session : Nat) (key : String) (events : List SerializedSearchEvent) :
    (disposeInternalFileSearchProvider
        (registerInternalFileSearchProvider
          (registerInternalFileSearchProvider s p1).2 p2).2).internalFileSearchProvider
      = none ∧
    (disposeInternalFileSearchProvider
        (registerInternalFileSearchProvider
          (registerInternalFileSearchProvider s p1).2 p2).2).internalFileSearchHandle
      = some ((registerInternalFileSearchProvider
          (registerInternalFileSearchProvider s p1).2 p2).1) ∧
    clearCache (disposeInternalFileSearchProvider
        (registerInternalFileSearchProvider
          (registerInternalFileSearchProvider s p1).2 p2).2) key
      = [ClearCacheCall.fileIndexSearchManager key] ∧
    provideFileSearchRoute (disposeInternalFileSearchProvider
        (registerInternalFileSearchProvider
          (registerInternalFileSearchProvider s p1).2 p2).2)
      ((registerInternalFileSearchProvider
          (registerInternalFileSearchProvider s p1).2 p2).1)
      = FileSearchRoute.internalSearch none ∧
    runInternalFileSearch none
        ((registerInternalFileSearchProvider
          (registerInternalFileSearchProvider s p1).2 p2).1) session events
      = Except.error "TypeError: cannot read property of null" := by
  refine ⟨rfl, rfl, by simp [clearCache, disposeInternalFileSearchProvider], ?_, rfl⟩
  simp [provideFileSearchRoute, disposeInternalFileSearchProvider,
    registerInternalFileSearchProvider]

end ExtHostSearch
